import Mathlib

/-!
# Verification of the user-account backend (controllers, model, middleware)

A shallow embedding of the auth core of the repository:

* `src/unnamed/part_001` — the Mongoose user model: password pre-save hook,
  `isPasswordCorrect`, `generateAccessToken`, `generateRefreshToken`;
* `src/src/controllers/user.controller.js` — `registerUser`, `loginUser`,
  `logoutUser`, `refreshAccessToken`, `updateUserAvatar`, `updateUserCoverImage`;
* `src/unnamed/part_000` — the `verifyJWT` middleware (its `jwt.verify` call).

JavaScript strings are Lean `String`s; `undefined` is `Option.none`; thrown
`ApiError`s become an explicit error result.  Signed JWTs are modelled as
records of (payload, signing secret, issued-at, expiry); two signing calls
with identical payload, secret and timestamps produce the identical token
string in reality, which matches structural equality of the record.
-/

namespace Backend

deriving instance DecidableEq for Except

/-! ## JavaScript string helpers

`String.prototype.trim` and `String.prototype.toLowerCase`, modelled over the
character list so that every definition evaluates by kernel reduction. -/

/-- A character `String.prototype.trim` strips. -/
def jsWhitespace (c : Char) : Bool :=
  c == ' ' || c == '\t' || c == '\n' || c == '\r'

/-- `s.trim()`. -/
def jsTrim (s : String) : String :=
  ⟨((s.data.dropWhile jsWhitespace).reverse.dropWhile jsWhitespace).reverse⟩

/-- `s.toLowerCase()`. -/
def jsToLower (s : String) : String :=
  ⟨s.data.map Char.toLower⟩

/-! ## Credential hasher (bcrypt model)

The value stored in the `password` path of a user document.  `bcrypt.hash`
produces a digest (`hashed`); the model keeps the hashed plaintext and cost as
data so that `bcrypt.compare` is expressible.  In the source the pre-save hook
reads `this.password = bcrypt.hash(this.password, 10);` with no `await`, so
the field receives the pending Promise of the digest, not the digest: that
value is `promiseOfHash`. -/
inductive StoredPassword where
  /-- a plaintext string sitting in the password path (before any save) -/
  | plain (p : String)
  /-- a bcrypt digest of plaintext `p` with cost `cost` -/
  | hashed (p : String) (cost : Nat)
  /-- the unresolved `Promise` returned by `bcrypt.hash p cost` (missing `await`) -/
  | promiseOfHash (p : String) (cost : Nat)
deriving DecidableEq, Repr

/-- `bcrypt.compare(password, stored)`: true iff `stored` is an actual bcrypt
digest of `password`.  Against a non-digest value (a plaintext that never went
through `bcrypt.hash`, or the string form of a pending Promise) the comparison
is false. -/
def bcryptCompare (password : String) (stored : StoredPassword) : Bool :=
  match stored with
  | .hashed p _ => password == p
  | _ => false

/-! ## Token issuer / verifier (jsonwebtoken model) -/

/-- Payload of `generateAccessToken`: `{_id, email, username, fullName}`. -/
structure AccessClaims where
  _id : String
  email : String
  username : String
  fullName : String
deriving DecidableEq, Repr

/-- Payload of `generateRefreshToken`: `{_id}`. -/
structure RefreshClaims where
  _id : String
deriving DecidableEq, Repr

/-- A decoded JWT payload is one of the two claim bundles this code signs. -/
inductive JwtPayload where
  | accessP (a : AccessClaims)
  | refreshP (r : RefreshClaims)
deriving DecidableEq, Repr

/-- `decodedToken?._id` — both payload shapes carry `_id`. -/
def JwtPayload.subjectId : JwtPayload → String
  | .accessP a => a._id
  | .refreshP r => r._id

/-- A signed token: `jwt.sign(payload, secret, {expiresIn})` at time `iat`
yields a token carrying the payload, signed with `secret`, with
`exp = iat + expiresIn`.  Times are seconds as `Nat`. -/
structure Token where
  payload : JwtPayload
  secret : String
  iat : Nat
  exp : Nat
deriving DecidableEq, Repr

/-- `jwt.sign(payload, secret, { expiresIn })` evaluated at time `now`. -/
def jwtSign (payload : JwtPayload) (secret : String) (expiresIn : Nat)
    (now : Nat) : Token :=
  { payload := payload, secret := secret, iat := now, exp := now + expiresIn }

/-- `jwt.verify(token, secret)` evaluated at time `now`: checks the signature
(the signing secret), then the `exp` claim (`jsonwebtoken` rejects once
`now ≥ exp`), and returns the decoded payload. -/
def jwtVerify (t : Token) (secret : String) (now : Nat) :
    Except String JwtPayload :=
  if t.secret != secret then .error "invalid signature"
  else if t.exp ≤ now then .error "jwt expired"
  else .ok t.payload

/-! ## Environment configuration -/

/-- The process environment variables the auth core reads. -/
structure Env where
  accessTokenSecret : String
  refreshTokenSecret : String
  accessTokenExpiry : Nat
  refreshTokenExpiry : Nat
deriving DecidableEq, Repr

/-! ## User documents and the record store -/

/-- A stored user document (the fields of `userSchema`). -/
structure User where
  id : String
  username : String
  email : String
  fullName : String
  avatar : String
  coverImage : String
  password : StoredPassword
  refreshToken : Option Token
  watchHistory : List String
deriving DecidableEq, Repr

/-- `userSchema.methods.isPasswordCorrect`: `bcrypt.compare(password, this.password)`. -/
def User.isPasswordCorrect (u : User) (password : String) : Bool :=
  bcryptCompare password u.password

/-- `userSchema.methods.generateAccessToken`: signs
`{_id, email, username, fullName}` with `ACCESS_TOKEN_SECRET` and
`ACCESS_TOKEN_EXPIRY`. -/
def User.generateAccessToken (u : User) (env : Env) (now : Nat) : Token :=
  jwtSign (.accessP ⟨u.id, u.email, u.username, u.fullName⟩)
    env.accessTokenSecret env.accessTokenExpiry now

/-- `userSchema.methods.generateRefreshToken`: signs `{_id}` with
`REFRESH_TOKEN_SECRET` and `REFRESH_TOKEN_EXPIRY`. -/
def User.generateRefreshToken (u : User) (env : Env) (now : Nat) : Token :=
  jwtSign (.refreshP ⟨u.id⟩) env.refreshTokenSecret env.refreshTokenExpiry now

/-- The record store: the collection of user documents. -/
abbrev Store := List User

/-- `User.findById(id)`. -/
def findById (store : Store) (id : String) : Option User :=
  store.find? (fun u => u.id == id)

/-- `User.findOne({ $or: [{ username }, { email }] })` where either query
value may be `undefined`: a branch with an `undefined` value matches no
document (both fields are required on every document). -/
def findByUsernameOrEmail (store : Store) (username? email? : Option String) :
    Option User :=
  store.find? (fun u => username? == some u.username || email? == some u.email)

/-- Replace the document with the given id (Mongoose single-document update). -/
def updateById (store : Store) (id : String) (f : User → User) : Store :=
  store.map (fun u => if u.id == id then f u else u)

/-! ## Errors and the response envelope

Modelled from the spec: `utils/ApiError.js` and `utils/ApiResponse.js` are not
among the provided sources; the spec gives the error envelope
`{ statusCode, message, success:false }` and the success envelope
`{ statusCode, data, message, success }`, and the controllers construct them
as `new ApiError(statusCode, message)` / `new ApiResponse(statusCode, data,
message)`. -/

/-- Modelled from the spec: `ApiError(statusCode, message)` — an error carrying
an HTTP status code and a message (`utils/ApiError.js` is not in the provided
sources). -/
structure ApiError where
  statusCode : Nat
  message : String
deriving DecidableEq, Repr

/-- An error escaping a handler: either an `ApiError` thrown deliberately, or a
raw JavaScript/store exception (a Mongoose validation error, a `TypeError`, a
rejected bcrypt promise) that carries no status code of its own. -/
inductive HandlerError where
  | api (e : ApiError)
  | js (message : String)
deriving DecidableEq, Repr

/-- Modelled from the spec: the response envelope
`{ statusCode, data, message, success }` built by
`new ApiResponse(statusCode, data, message)` (`utils/ApiResponse.js` is not in
the provided sources; per the spec, `success` reflects the envelope's own
status code). -/
structure ApiResponse (α : Type) where
  statusCode : Nat
  data : α
  message : String
  success : Bool
deriving DecidableEq, Repr

/-! ## Projections (`.select`)

Mongoose `.select("-password -refreshToken")` is an exclusive projection (all
fields except those named); `.select("password")` is an inclusive projection
(only `_id` and the named field).  A view marks absent fields with `none`. -/

/-- A projected user document as it appears in a response body. -/
structure UserView where
  id : String
  username? : Option String
  email? : Option String
  fullName? : Option String
  avatar? : Option String
  coverImage? : Option String
  password? : Option StoredPassword
  refreshToken? : Option (Option Token)
deriving DecidableEq, Repr

/-- `.select("-password -refreshToken")`: every field except the two secrets. -/
def selectWithoutSecrets (u : User) : UserView :=
  { id := u.id
    username? := some u.username
    email? := some u.email
    fullName? := some u.fullName
    avatar? := some u.avatar
    coverImage? := some u.coverImage
    password? := none
    refreshToken? := none }

/-- `.select("password")`: inclusive projection — only `_id` and `password`. -/
def selectPasswordOnly (u : User) : UserView :=
  { id := u.id
    username? := none
    email? := none
    fullName? := none
    avatar? := none
    coverImage? := none
    password? := some u.password
    refreshToken? := none }

/-! ## `generateAccessAndRefreshTokens` (controller helper) -/

/-- `generateAccessAndRefreshTokens(userId)`: load the user, mint both tokens,
persist the refresh token on the document (`user.save` — the password is not
modified, so the pre-save hash hook does nothing), return both.  Any failure
inside (in particular `user` being `null`) is caught and rethrown as
`ApiError(500, ...)`. -/
def generateAccessAndRefreshTokens (env : Env) (now : Nat) (store : Store)
    (userId : String) : Except ApiError (Store × Token × Token) :=
  match findById store userId with
  | none =>
      .error ⟨500, "Something went wrong while generating access and refresh token"⟩
  | some user =>
      let accessToken := user.generateAccessToken env now
      let refreshToken := user.generateRefreshToken env now
      let store1 := updateById store userId
        (fun u => { u with refreshToken := some refreshToken })
      .ok (store1, accessToken, refreshToken)

/-! ## `registerUser` -/

/-- JavaScript truthiness of an optional string: `undefined` and `""` are falsy. -/
def strTruthy : Option String → Bool
  | none => false
  | some s => s != ""

/-- The request body of `POST /users/register` (each field may be absent). -/
structure RegisterBody where
  fullName : Option String
  username : Option String
  email : Option String
  password : Option String
deriving DecidableEq, Repr

/-- The multipart file paths multer attaches:
`req.files?.avatar?.[0]?.path` and `req.files?.coverImage?.[0]?.path`. -/
structure RegisterFiles where
  avatarPath : Option String
  coverImagePath : Option String
deriving DecidableEq, Repr

structure RegisterReq where
  body : RegisterBody
  files : RegisterFiles
deriving DecidableEq, Repr

/-- A store / media-store interaction performed by `registerUser`, in order. -/
inductive Effect where
  /-- `User.findOne({$or: [{username}, {email}]})` -/
  | findOne
  /-- `uploadOnCloudinary(path)` reaching the media store (a call with an
  absent path returns `null` before contacting the store) -/
  | upload (path : String)
  /-- `User.create(...)` -/
  | create
  /-- the read-back `User.findById(user._id).select(...)` -/
  | readBack
deriving DecidableEq, Repr

/-- The media store collaborator: a local file path goes in, a durable URL
comes out, or `none` on failure (`uploadOnCloudinary` returns `null`). -/
abbrev Uploader := String → Option String

/-- `uploadOnCloudinary(localFilePath)`: returns `null` immediately when the
path is falsy, otherwise asks the media store. -/
def uploadOnCloudinary (uploader : Uploader) (path : Option String) :
    Option String :=
  match path with
  | none => none
  | some p => uploader p

/-- `coverImage?.url || ""`: the stored cover URL after the optional upload. -/
def coverUrlOf (uploader : Uploader) (coverImagePath : Option String) : String :=
  match uploadOnCloudinary uploader coverImagePath with
  | some u => u
  | none => ""

/-- The media-store interactions once both `uploadOnCloudinary` calls of
`registerUser` have run (the cover call with an absent path returns before
contacting the store). -/
def uploadEffects (avatarPath : String) (coverImagePath : Option String) :
    List Effect :=
  [Effect.findOne, Effect.upload avatarPath] ++
    (match coverImagePath with
      | some p => [Effect.upload p]
      | none => [])

/-- The validation test of step 2 of `registerUser`:
`[fullName, email, username, password].some(f => f?.trim() === "")`.
An absent field gives `undefined?.trim()`, which is `undefined`, not `""`,
so only a *supplied* blank field triggers it. -/
def someFieldBlank (b : RegisterBody) : Bool :=
  [b.fullName, b.email, b.username, b.password].any
    (fun f => f.map jsTrim == some "")

/-- `User.create({...})`: Mongoose applies the schema setters
(`trim`/`lowercase` on `username` and `email`, `trim` on `fullName`), enforces
`required` on `fullName`, `email`, `password` (a missing one raises a
validation error), the `unique` indexes back-stop duplicates, and the
pre-save hook replaces the password with `bcrypt.hash(password, 10)` —
written without `await`, so the stored value is the pending Promise of the
digest.  `newId` is the `_id` Mongo assigns. -/
def createUser (store : Store) (newId : String) (fullName? email? password? :
    Option String) (usernameLowered : String) (avatarUrl coverUrl : String) :
    Except String (Store × User) :=
  match fullName?, email?, password? with
  | some fullName, some email, some password =>
      let username := jsToLower (jsTrim usernameLowered)
      let emailStored := jsToLower (jsTrim email)
      if store.any (fun u => u.username == username || u.email == emailStored) then
        .error "E11000 duplicate key error"
      else
        let user : User :=
          { id := newId
            username := username
            email := emailStored
            fullName := jsTrim fullName
            avatar := avatarUrl
            coverImage := coverUrl
            password := .promiseOfHash password 10
            refreshToken := none
            watchHistory := [] }
        .ok (store ++ [user], user)
  | _, _, _ => .error "User validation failed: required path missing"

/-- What `registerUser` sends on success. -/
structure RegisterResult where
  httpStatus : Nat
  body : ApiResponse UserView
deriving DecidableEq, Repr

/-- `registerUser` (controller).  Returns the interactions performed, the
resulting store, and either the thrown error or the response. -/
def registerUser (uploader : Uploader) (newId : String) (req : RegisterReq)
    (store : Store) : List Effect × Store × Except HandlerError RegisterResult :=
  -- 2. validation - not empty (only over supplied fields; see someFieldBlank)
  if someFieldBlank req.body then
    ([], store, .error (.api ⟨400, "All fields are required"⟩))
  else
    -- 3. check if user already exists
    match findByUsernameOrEmail store req.body.username req.body.email with
    | some _ =>
        ([.findOne], store,
          .error (.api ⟨409, "User already exists with this username or email"⟩))
    | none =>
      -- 4. check for avatar path
      match req.files.avatarPath with
      | none => ([.findOne], store, .error (.api ⟨400, "Avatar file is required"⟩))
      | some avatarPath =>
        -- 5. upload both to the media store (cover upload runs before the check)
        match uploader avatarPath with
        | none =>
            (uploadEffects avatarPath req.files.coverImagePath, store,
              .error (.api ⟨400, "Avatar file is required"⟩))
        | some avatarUrl =>
          -- 6. create the user; `username.toLowerCase()` throws if absent
          match req.body.username with
          | none =>
              (uploadEffects avatarPath req.files.coverImagePath, store,
                .error (.js "Cannot read properties of undefined (reading toLowerCase)"))
          | some username =>
            match createUser store newId req.body.fullName req.body.email
                req.body.password (jsToLower username) avatarUrl
                (coverUrlOf uploader req.files.coverImagePath) with
            | .error msg =>
                (uploadEffects avatarPath req.files.coverImagePath ++ [.create],
                  store, .error (.js msg))
            | .ok (store1, user) =>
              -- 7./8. read back without secrets, 500 if the read-back is empty
              match findById store1 user.id with
              | none =>
                  (uploadEffects avatarPath req.files.coverImagePath ++
                      [.create, .readBack], store1,
                    .error (.api ⟨500, "Something went wrong while registering the user"⟩))
              | some created =>
                  -- 9. res.status(201).json(new ApiResponse(200, createdUser, ...))
                  (uploadEffects avatarPath req.files.coverImagePath ++
                      [.create, .readBack], store1,
                    .ok ⟨201, ⟨200, selectWithoutSecrets created,
                      "User registered successfully", true⟩⟩)

/-! ## `loginUser` -/

structure LoginBody where
  email : Option String
  username : Option String
  password : Option String
deriving DecidableEq, Repr

/-- The data object of the login response. -/
structure LoginData where
  user : Option UserView
  accessToken : Token
  refreshToken : Token
deriving DecidableEq, Repr

structure LoginResult where
  httpStatus : Nat
  cookies : List (String × Token)
  body : ApiResponse LoginData
deriving DecidableEq, Repr

/-- `loginUser` (controller). -/
def loginUser (env : Env) (now : Nat) (body : LoginBody) (store : Store) :
    Store × Except HandlerError LoginResult :=
  -- if (!username && !email)
  if !strTruthy body.username && !strTruthy body.email then
    (store, .error (.api ⟨400, "Username or Email is required"⟩))
  else
    match findByUsernameOrEmail store body.username body.email with
    | none => (store, .error (.api ⟨404, "User does not exist"⟩))
    | some user =>
      match body.password with
      | none =>
          -- bcrypt.compare(undefined, hash) rejects
          (store, .error (.js "data and hash arguments required"))
      | some password =>
        if !(user.isPasswordCorrect password) then
          (store, .error (.api ⟨401, "Invalid user credentials"⟩))
        else
          match generateAccessAndRefreshTokens env now store user.id with
          | .error e => (store, .error (.api e))
          | .ok (store1, accessToken, refreshToken) =>
            let loggedInUser := (findById store1 user.id).map selectWithoutSecrets
            (store1,
              .ok ⟨200,
                [("accessToken", accessToken), ("refreshToken", refreshToken)],
                ⟨200, ⟨loggedInUser, accessToken, refreshToken⟩,
                  "User logged in sucessfully", true⟩⟩)

/-! ## `logoutUser` -/

structure LogoutResult where
  httpStatus : Nat
  clearedCookies : List String
  body : ApiResponse Unit
deriving DecidableEq, Repr

/-- The store mutation of `logoutUser`:
`User.findByIdAndUpdate(req.user._id, { $set: { refreshToken: undefined } })`.
Mongoose (v6 and later) strips keys whose value is `undefined` when casting an
update document, so the `$set` becomes empty and the matched document is
written back unchanged: the stored refresh token is *not* cleared.  (Clearing
would require `$unset: { refreshToken: 1 }` or `$set: { refreshToken: null }`.)
No error when the id matches nothing. -/
def logoutStore (store : Store) (userId : String) : Store :=
  updateById store userId (fun u => u)

/-- `logoutUser` (controller): run the (no-op) update above, clear both
cookies on the response, respond 200. -/
def logoutUser (userId : String) (store : Store) : Store × LogoutResult :=
  (logoutStore store userId,
    ⟨200, ["accessToken", "refreshToken"],
      ⟨200, (), "User logged out successfully", true⟩⟩)

/-! ## `refreshAccessToken` -/

/-- The cookie jar of an incoming request, keyed by the names this code ever
reads or sets.  Login sets `accessToken`/`refreshToken`; the refresh handler
reads `req.cookies.refreshAccessToken`. -/
structure Cookies where
  accessToken : Option Token
  refreshToken : Option Token
  refreshAccessToken : Option Token
deriving DecidableEq, Repr

/-- A cookie jar with nothing set. -/
def Cookies.empty : Cookies := ⟨none, none, none⟩

structure RefreshReq where
  cookies : Cookies
  bodyRefreshToken : Option Token
deriving DecidableEq, Repr

/-- `req.cookies.refreshAccessToken || req.body.refreshToken`. -/
def presentedToken (req : RefreshReq) : Option Token :=
  req.cookies.refreshAccessToken <|> req.bodyRefreshToken

/-- The data object of the refresh response:
`{ accessToken, refreshToken: newRefreshToken }` where `newRefreshToken` was
destructured from `{ accessToken, refreshToken }` — a property that does not
exist — so it is `undefined`. -/
structure RefreshData where
  accessToken : Token
  refreshToken : Option Token
deriving DecidableEq, Repr

structure RefreshResult where
  httpStatus : Nat
  cookies : List (String × Option Token)
  body : ApiResponse RefreshData
deriving DecidableEq, Repr

/-- `refreshAccessToken` (controller).  Everything after the presence check
runs inside `try { ... } catch (error) { throw new ApiError(401,
error?.message || "Invalid Refresh Token") }`, so every inner failure
resurfaces as a 401 carrying the inner message. -/
def refreshAccessToken (env : Env) (now : Nat) (req : RefreshReq)
    (store : Store) : Store × Except HandlerError RefreshResult :=
  match presentedToken req with
  | none => (store, .error (.api ⟨401, "Unauthorized access"⟩))
  | some incomingRefreshToken =>
    match jwtVerify incomingRefreshToken env.refreshTokenSecret now with
    | .error msg => (store, .error (.api ⟨401, msg⟩))
    | .ok decoded =>
      match findById store decoded.subjectId with
      | none => (store, .error (.api ⟨401, "Invalid Refresh Token"⟩))
      | some user =>
        if some incomingRefreshToken != user.refreshToken then
          (store, .error (.api ⟨401, "Refresh Token is expired or used"⟩))
        else
          match generateAccessAndRefreshTokens env now store user.id with
          | .error e => (store, .error (.api ⟨401, e.message⟩))
          | .ok (store1, accessToken, _refreshToken) =>
            -- const { accessToken, newRefreshToken } = ...: the helper returns
            -- { accessToken, refreshToken }, so newRefreshToken is undefined
            let newRefreshToken : Option Token := none
            (store1,
              .ok ⟨200,
                [("AccessToken", some accessToken),
                 ("RefreshToken", newRefreshToken)],
                ⟨200, ⟨accessToken, newRefreshToken⟩,
                  "Access Token refreshed", true⟩⟩)

/-! ## `updateUserAvatar` and `updateUserCoverImage` -/

/-- The request of the two single-file update endpoints: the authenticated
user's id (attached by `verifyJWT`) and `req.file?.path` from multer. -/
structure UpdateFileReq where
  userId : String
  filePath : Option String
deriving DecidableEq, Repr

structure UpdateResult where
  httpStatus : Nat
  body : ApiResponse (Option UserView)
deriving DecidableEq, Repr

/-- `updateUserAvatar` (controller).  Note `.select("password")` — an
*inclusive* projection, unlike the `-password -refreshToken` used elsewhere.
`uploadOnCloudinary` returning `null` makes `avatar.url` throw a `TypeError`. -/
def updateUserAvatar (uploader : Uploader) (req : UpdateFileReq)
    (store : Store) : Store × Except HandlerError UpdateResult :=
  match req.filePath with
  | none => (store, .error (.api ⟨400, "Avatar file is missing"⟩))
  | some path =>
    match uploader path with
    | none =>
        (store, .error (.js "Cannot read properties of null (reading url)"))
    | some url =>
      if url == "" then
        (store, .error (.api ⟨400, "Error while uploading on avatar"⟩))
      else
        let store1 := updateById store req.userId
          (fun u => { u with avatar := url })
        let user := (findById store1 req.userId).map selectPasswordOnly
        (store1,
          .ok ⟨200, ⟨200, user, "Avatar Image updated successfully", true⟩⟩)

/-- `updateUserCoverImage` (controller); same shape as `updateUserAvatar`,
including the `.select("password")` projection (and the copied error text). -/
def updateUserCoverImage (uploader : Uploader) (req : UpdateFileReq)
    (store : Store) : Store × Except HandlerError UpdateResult :=
  match req.filePath with
  | none => (store, .error (.api ⟨400, "Cover Image file is missing"⟩))
  | some path =>
    match uploader path with
    | none =>
        (store, .error (.js "Cannot read properties of null (reading url)"))
    | some url =>
      if url == "" then
        (store, .error (.api ⟨400, "Error while uploading on avatar"⟩))
      else
        let store1 := updateById store req.userId
          (fun u => { u with coverImage := url })
        let user := (findById store1 req.userId).map selectPasswordOnly
        (store1,
          .ok ⟨200, ⟨200, user, "Cover Image updated successfully", true⟩⟩)

/-! ## Concrete fixtures -/

/-- A concrete environment configuration. -/
def env0 : Env := ⟨"access-secret", "refresh-secret", 3600, 864000⟩

/-- A media store that turns a path into a URL and never fails. -/
def uploader0 : Uploader := fun p => some ("http://cdn/" ++ p)

/-- A media store that always fails. -/
def uploaderFail : Uploader := fun _ => none

/-- A stored user holding an honest bcrypt digest of `"correct-pw"`. -/
def alice : User :=
  ⟨"u1", "alice", "alice@x.com", "Alice A", "http://cdn/a.png", "",
    .hashed "correct-pw" 10, none, []⟩

/-- The refresh token `alice.generateRefreshToken` mints at time 10. -/
def rt0 : Token := alice.generateRefreshToken env0 10

/-- Alice with `rt0` persisted, as after a login at time 10. -/
def aliceSession : User := { alice with refreshToken := some rt0 }

/-- A well-formed registration request. -/
def regReq0 : RegisterReq :=
  ⟨⟨some "Alice A", some "alice", some "alice@x.com", some "secret123"⟩,
    ⟨some "a.png", none⟩⟩

/-- The document `registerUser uploader0 "u1" regReq0 []` creates. -/
def regUser0 : User :=
  ⟨"u1", "alice", "alice@x.com", "Alice A", "http://cdn/a.png", "",
    .promiseOfHash "secret123" 10, none, []⟩

/-- The interactions `registerUser uploader0 "u1" regReq0 []` performs. -/
def regEffects0 : List Effect := [.findOne, .upload "a.png", .create, .readBack]

/-- The response `registerUser uploader0 "u1" regReq0 []` sends. -/
def regRes0 : RegisterResult :=
  ⟨201, ⟨200, selectWithoutSecrets regUser0, "User registered successfully", true⟩⟩

/-! ## Theorems -/

/-- **C1** (code bug).  The failing input evaluated: registering with password
`"secret123"` succeeds and the stored document never holds the plaintext — but
only because the pre-save hook, lacking `await`, stores the *pending Promise*
of `bcrypt.hash("secret123", 10)` rather than the digest, so
`isPasswordCorrect("secret123")` is `false`: the password supplied at
registration can never log in, contradicting the claim that verification of
the exact plaintext returns true. -/
theorem register_password_never_verifies :
    (registerUser uploader0 "u1" regReq0 []).2.1 = [regUser0] ∧
    regUser0.password = .promiseOfHash "secret123" 10 ∧
    regUser0.password ≠ .plain "secret123" ∧
    regUser0.isPasswordCorrect "secret123" = false := by
  decide

/-- **C10** (confirmed).  Every successful registration responds with HTTP
status 201 while the envelope built by `new ApiResponse(200, ...)` carries
`statusCode` 200, so the envelope's status never equals the transport status
on this operation. -/
theorem register_envelope_status_mismatch (uploader : Uploader)
    (newId : String) (req : RegisterReq) (store : Store)
    (effs : List Effect) (store1 : Store) (r : RegisterResult)
    (h : registerUser uploader newId req store = (effs, store1, .ok r)) :
    r.httpStatus = 201 ∧ r.body.statusCode = 200 ∧
    r.httpStatus ≠ r.body.statusCode := by
  unfold registerUser at h
  repeat' split at h
  all_goals simp only [Prod.mk.injEq] at h
  all_goals try exact Except.noConfusion h.2.2
  injection h.2.2 with hr
  subst hr
  exact ⟨rfl, rfl, by simp⟩

/-- Witness for C10: a concrete successful registration, with the conclusion
obtained by applying `register_envelope_status_mismatch` to it. -/
theorem register_envelope_status_mismatch_witness :
    (registerUser uploader0 "u1" regReq0 [] = (regEffects0, [regUser0], .ok regRes0)) ∧
    regRes0.httpStatus = 201 ∧ regRes0.body.statusCode = 200 ∧
    regRes0.httpStatus ≠ regRes0.body.statusCode :=
  ⟨by decide,
    register_envelope_status_mismatch uploader0 "u1" regReq0 []
      regEffects0 [regUser0] regRes0 (by decide)⟩

/-- **C4** (confirmed).  Round-trip of the token issuer: a token minted by
`generateAccessToken` at time `now`, verified with the access secret at any
time `t` before its expiry, decodes to exactly the claim bundle
`{_id, email, username, fullName}` that was signed; at any time from expiry
on, verification fails (`jsonwebtoken` raises `TokenExpiredError`). -/
theorem accessToken_roundtrip (u : User) (env : Env) (now t : Nat) :
    (t < now + env.accessTokenExpiry →
      jwtVerify (u.generateAccessToken env now) env.accessTokenSecret t =
        .ok (.accessP ⟨u.id, u.email, u.username, u.fullName⟩)) ∧
    (now + env.accessTokenExpiry ≤ t →
      jwtVerify (u.generateAccessToken env now) env.accessTokenSecret t =
        .error "jwt expired") := by
  unfold User.generateAccessToken jwtSign jwtVerify
  simp only [bne_self_eq_false]
  constructor
  · intro h
    rw [if_neg (by simp), if_neg (by omega)]
  · intro h
    rw [if_neg (by simp), if_pos (by omega)]

/-- Witness for C4: the concrete token minted for `alice` at time 5 verifies
to her claims at time 6 and is rejected as expired at time 999999. -/
theorem accessToken_roundtrip_witness :
    (6 < 5 + env0.accessTokenExpiry ∧
      jwtVerify (alice.generateAccessToken env0 5) env0.accessTokenSecret 6 =
        .ok (.accessP ⟨alice.id, alice.email, alice.username, alice.fullName⟩)) ∧
    (5 + env0.accessTokenExpiry ≤ 999999 ∧
      jwtVerify (alice.generateAccessToken env0 5) env0.accessTokenSecret 999999 =
        .error "jwt expired") :=
  ⟨⟨by decide, (accessToken_roundtrip alice env0 5 6).1 (by decide)⟩,
   ⟨by decide, (accessToken_roundtrip alice env0 5 999999).2 (by decide)⟩⟩

/-- **C5** (counterexample).  The two failing logins are *not*
indistinguishable: with `alice` in the store, a wrong password yields
`ApiError(401, "Invalid user credentials")`, while an unknown identifier
yields `ApiError(404, "User does not exist")` — a different status code and a
different message, revealing whether the identifier exists. -/
theorem login_wrong_vs_unknown_distinguishable :
    (loginUser env0 100 ⟨none, some "alice", some "wrong-pw"⟩ [alice]).2 =
      .error (.api ⟨401, "Invalid user credentials"⟩) ∧
    (loginUser env0 100 ⟨none, some "bob", some "wrong-pw"⟩ [alice]).2 =
      .error (.api ⟨404, "User does not exist"⟩) ∧
    (loginUser env0 100 ⟨none, some "alice", some "wrong-pw"⟩ [alice]).2 ≠
      (loginUser env0 100 ⟨none, some "bob", some "wrong-pw"⟩ [alice]).2 := by
  decide

/-- Helper: the login guard `if (!username && !email)` is not taken when an
identifier is truthy. -/
theorem not_and_not_of_or {a b : Bool} (h : (a || b) = true) :
    ¬((!a && !b) = true) := by
  cases a <;> cases b <;> simp_all

/-- **C5** (amended).  A login whose password fails verification against an
existing record fails with `AuthError` (401, "Invalid user credentials"),
while a login with a supplied identifier that matches no record fails with
`NotFoundError` (404, "User does not exist"): the wrong-password outcome is
uniform, but it differs observably from the unknown-identifier outcome. -/
theorem login_error_statuses (env : Env) (now : Nat) (body : LoginBody)
    (store : Store) :
    ((strTruthy body.username || strTruthy body.email) = true →
      findByUsernameOrEmail store body.username body.email = none →
      (loginUser env now body store).2 =
        .error (.api ⟨404, "User does not exist"⟩)) ∧
    (∀ user pw, (strTruthy body.username || strTruthy body.email) = true →
      findByUsernameOrEmail store body.username body.email = some user →
      body.password = some pw → user.isPasswordCorrect pw = false →
      (loginUser env now body store).2 =
        .error (.api ⟨401, "Invalid user credentials"⟩)) := by
  constructor
  · intro hid hfind
    unfold loginUser
    rw [if_neg (not_and_not_of_or hid), hfind]
  · intro user pw hid hfind hpw hwrong
    unfold loginUser
    rw [if_neg (not_and_not_of_or hid), hfind, hpw]
    simp [hwrong]

/-- Witness for C5's amended statement: both branches applied at concrete
inputs against the store `[alice]`. -/
theorem login_error_statuses_witness :
    ((strTruthy (some "bob") || strTruthy (none : Option String)) = true ∧
      (loginUser env0 100 ⟨none, some "bob", some "wrong-pw"⟩ [alice]).2 =
        .error (.api ⟨404, "User does not exist"⟩)) ∧
    (alice.isPasswordCorrect "wrong-pw" = false ∧
      (loginUser env0 100 ⟨none, some "alice", some "wrong-pw"⟩ [alice]).2 =
        .error (.api ⟨401, "Invalid user credentials"⟩)) :=
  ⟨⟨by decide,
      (login_error_statuses env0 100 ⟨none, some "bob", some "wrong-pw"⟩ [alice]).1
        (by decide) (by decide)⟩,
   ⟨by decide,
      (login_error_statuses env0 100 ⟨none, some "alice", some "wrong-pw"⟩ [alice]).2
        alice "wrong-pw" (by decide) (by decide) rfl (by decide)⟩⟩

/-- The refresh token minted during a refresh call at time 20. -/
def rt1 : Token := aliceSession.generateRefreshToken env0 20

/-- The access token minted during a refresh call at time 20. -/
def at1 : Token := aliceSession.generateAccessToken env0 20

/-- **C2** (code bug).  The failing input evaluated: presenting `rt0` (the
stored refresh token) rotates correctly — the new token `rt1` is persisted and
a second refresh with `rt0` fails with 401 — but the response body's
`refreshToken` and the `RefreshToken` cookie are `undefined`, because the
handler destructures `newRefreshToken` out of a helper that returns
`{ accessToken, refreshToken }`.  The newly persisted refresh token is *not*
returned, contradicting the claim. -/
theorem refresh_response_refreshToken_undefined :
    (refreshAccessToken env0 20 ⟨Cookies.empty, some rt0⟩ [aliceSession]).1 =
      [{ aliceSession with refreshToken := some rt1 }] ∧
    rt1 ≠ rt0 ∧
    (refreshAccessToken env0 30 ⟨Cookies.empty, some rt0⟩
        (refreshAccessToken env0 20 ⟨Cookies.empty, some rt0⟩ [aliceSession]).1).2 =
      .error (.api ⟨401, "Refresh Token is expired or used"⟩) ∧
    (refreshAccessToken env0 20 ⟨Cookies.empty, some rt0⟩ [aliceSession]).2 =
      .ok ⟨200, [("AccessToken", some at1), ("RefreshToken", none)],
        ⟨200, ⟨at1, none⟩, "Access Token refreshed", true⟩⟩ := by
  decide

/-- **C6** (code bug).  The failing input evaluated: the handler reads
`req.cookies.refreshAccessToken`, not the `refreshToken` cookie that Login
sets, so a request presenting the valid stored token through the
`refreshToken` cookie is rejected with 401 "Unauthorized access" as if no
token were presented; the same token in a cookie named `refreshAccessToken`
(which nothing in the system ever sets) or in the body succeeds; with no
token on any channel the call fails with 401 as the claim says. -/
theorem refresh_ignores_refreshToken_cookie :
    (refreshAccessToken env0 20 ⟨⟨none, some rt0, none⟩, none⟩ [aliceSession]).2 =
      .error (.api ⟨401, "Unauthorized access"⟩) ∧
    (refreshAccessToken env0 20 ⟨⟨none, none, some rt0⟩, none⟩ [aliceSession]).2 =
      .ok ⟨200, [("AccessToken", some at1), ("RefreshToken", none)],
        ⟨200, ⟨at1, none⟩, "Access Token refreshed", true⟩⟩ ∧
    (refreshAccessToken env0 20 ⟨Cookies.empty, none⟩ [aliceSession]).2 =
      .error (.api ⟨401, "Unauthorized access"⟩) := by
  decide

/-- **C8** (code bug).  The failing input evaluated: on a successful avatar
(resp. cover image) update the handler projects the updated document with
`.select("password")` — an inclusive projection — so the returned view
carries the stored password hash and *only* it, instead of the sanitized view
with the secrets omitted. -/
theorem update_avatar_cover_return_password_only :
    (updateUserAvatar uploader0 ⟨"u1", some "new.png"⟩ [alice]).2 =
      .ok ⟨200, ⟨200,
        some ⟨"u1", none, none, none, none, none, some (.hashed "correct-pw" 10), none⟩,
        "Avatar Image updated successfully", true⟩⟩ ∧
    (updateUserCoverImage uploader0 ⟨"u1", some "cover.png"⟩ [alice]).2 =
      .ok ⟨200, ⟨200,
        some ⟨"u1", none, none, none, none, none, some (.hashed "correct-pw" 10), none⟩,
        "Cover Image updated successfully", true⟩⟩ := by
  decide

/-- **C3** (code bug).  The failing input evaluated: with `rt0` persisted for
user `"u1"`, `logoutUser` leaves the store unchanged — Mongoose strips the
`undefined` value from `$set: { refreshToken: undefined }`, so the update is
an empty no-op and the stored refresh token survives — and a subsequent
`refreshAccessToken` presenting the pre-logout token `rt0` through the body
channel *succeeds* with 200 instead of failing with an `AuthError`. -/
theorem logout_does_not_revoke :
    (logoutUser "u1" [aliceSession]).1 = [aliceSession] ∧
    aliceSession.refreshToken = some rt0 ∧
    (refreshAccessToken env0 20 ⟨Cookies.empty, some rt0⟩
        (logoutUser "u1" [aliceSession]).1).2 =
      .ok ⟨200, [("AccessToken", some at1), ("RefreshToken", none)],
        ⟨200, ⟨at1, none⟩, "Access Token refreshed", true⟩⟩ := by
  decide

/-- **C7** (amended).  The validation of `registerUser` rejects — with
`ApiError(400, "All fields are required")`, before any store or upload
interaction (empty effect list, store unchanged) — any request in which one
of the four fields is *supplied but blank after trimming*; a missing
(`undefined`) field is not caught by this check, because
`field?.trim() === ""` evaluates to `undefined === ""`, which is false. -/
theorem register_blank_field_rejected (uploader : Uploader) (newId : String)
    (req : RegisterReq) (store : Store)
    (h : ∃ f ∈ [req.body.fullName, req.body.email, req.body.username,
        req.body.password], ∃ s, f = some s ∧ jsTrim s = "") :
    registerUser uploader newId req store =
      ([], store, .error (.api ⟨400, "All fields are required"⟩)) := by
  have hb : someFieldBlank req.body = true := by
    unfold someFieldBlank
    rw [List.any_eq_true]
    rcases h with ⟨f, hf, s, rfl, hs⟩
    exact ⟨some s, hf, by simp [hs]⟩
  unfold registerUser
  rw [if_pos hb]

/-- Witness for C7's amended statement: a password of blanks is rejected with
400 and no interaction. -/
theorem register_blank_field_rejected_witness :
    registerUser uploader0 "u9"
      ⟨⟨some "Alice A", some "alice", some "a@x.com", some "   "⟩,
        ⟨some "a.png", none⟩⟩ [] =
      ([], [], .error (.api ⟨400, "All fields are required"⟩)) :=
  register_blank_field_rejected uploader0 "u9"
    ⟨⟨some "Alice A", some "alice", some "a@x.com", some "   "⟩,
      ⟨some "a.png", none⟩⟩ []
    ⟨some "   ", by decide, "   ", rfl, by decide⟩

/-- A registration request with the password field missing entirely. -/
def regReqMissingPw : RegisterReq :=
  ⟨⟨some "Alice A", some "alice", some "a@x.com", none⟩, ⟨some "a.png", none⟩⟩

/-- **C7** (counterexample).  A request with the `password` field *missing*
is not rejected by the validation: `registerUser` goes on to query the store,
upload the avatar and attempt the create (which fails at the store with a
Mongoose required-path error, not with the 400 `ValidationError` the claim
requires, and only after store and upload interactions). -/
theorem register_missing_field_not_validated :
    registerUser uploader0 "u2" regReqMissingPw [] =
      ([.findOne, .upload "a.png", .create], [],
        .error (.js "User validation failed: required path missing")) ∧
    (registerUser uploader0 "u2" regReqMissingPw []).1 ≠ [] ∧
    (registerUser uploader0 "u2" regReqMissingPw []).2.2 ≠
      .error (.api ⟨400, "All fields are required"⟩) := by
  decide

/-- **C9** (confirmed).  With well-formed fields and no conflicting record:
a registration with no avatar file path fails with `ApiError(400, "Avatar
file is required")` right after the existence check, the store unchanged; and
a registration whose avatar upload comes back without a URL fails with the
same 400 after the uploads, the store again unchanged — in both cases no
record is created. -/
theorem register_avatar_failures (uploader : Uploader) (newId : String)
    (req : RegisterReq) (store : Store)
    (hv : someFieldBlank req.body = false)
    (hc : findByUsernameOrEmail store req.body.username req.body.email = none) :
    (req.files.avatarPath = none →
      registerUser uploader newId req store =
        ([.findOne], store, .error (.api ⟨400, "Avatar file is required"⟩))) ∧
    (∀ p, req.files.avatarPath = some p → uploader p = none →
      (registerUser uploader newId req store).2 =
        (store, .error (.api ⟨400, "Avatar file is required"⟩))) := by
  constructor
  · intro ha
    unfold registerUser
    rw [if_neg (by simp [hv]), hc, ha]
  · intro p hp hu
    unfold registerUser
    rw [if_neg (by simp [hv]), hc]
    dsimp only
    rw [hp]
    dsimp only
    rw [hu]

/-- A registration request with no avatar file attached. -/
def regReqNoAvatar : RegisterReq :=
  ⟨⟨some "Alice A", some "alice", some "a@x.com", some "secret123"⟩, ⟨none, none⟩⟩

/-- Witness for C9: both failure modes evaluated on concrete requests against
the empty store. -/
theorem register_avatar_failures_witness :
    (registerUser uploaderFail "u3" regReqNoAvatar [] =
      ([.findOne], [], .error (.api ⟨400, "Avatar file is required"⟩))) ∧
    ((registerUser uploaderFail "u4" regReq0 []).2 =
      ([], .error (.api ⟨400, "Avatar file is required"⟩))) :=
  ⟨(register_avatar_failures uploaderFail "u3" regReqNoAvatar []
      (by decide) (by decide)).1 rfl,
   (register_avatar_failures uploaderFail "u4" regReq0 []
      (by decide) (by decide)).2 "a.png" rfl rfl⟩

end Backend
